import Mathlib

/-!
Verification of the dynamic SQL filter/update builder of the Jobly Express API
(`helpers/sql.js`), together with the jobs model's use of it (`models/job.js`).

JavaScript objects are embedded as association lists `List (String × β)` whose
order is the object's key insertion order (JS objects have unique keys, and
`Object.keys` / `Object.values` iterate in insertion order).  JS exceptions are
embedded as `Except JsError`.  JS numbers reached by these functions are the
results of unary plus on query-parameter strings; they are embedded as
integer-or-NaN (`JSNum`), covering the optionally signed decimal-integer
fragment of the Number grammar that the filter routes exercise.
-/

deriving instance DecidableEq for Except

namespace Jobly

/-- Errors raised by the embedded code: `BadRequestError`s thrown by
`helpers/sql.js`, and the JS `TypeError` raised when a method is invoked on
`undefined`. -/
inductive JsError where
  | badRequest (msg : String)
  | typeError (msg : String)
  deriving DecidableEq, Repr

/-- A JS number as produced by unary plus on a query-parameter string:
either NaN or an integer value. -/
inductive JSNum where
  | nan
  | int (n : Int)
  deriving DecidableEq, Repr

/-- Result record of `sqlForPartialUpdate`: `{ setCols, values }`. -/
structure UpdateResult (α : Type) where
  setCols : String
  values : List α
  deriving DecidableEq, Repr

/-- Modelled from the spec: the `REJECTEDVALUES` constant exported by
`config.js`, which is not among the given sources (only `helpers/sql.js`
imports it).  The spec describes it as "a fixed set of sentinel strings"
whose membership check rejects "empty string, whitespace-only string, and
string literals representing null/undefined"; the unit tests exercise
exactly `""`, `" "` and `"null"`. -/
def REJECTEDVALUES : List String := ["", " ", "null", "undefined"]

/-- Property lookup on an object embedded as an association list
(first binding wins; JS objects hold each key once). -/
def jsGet {β : Type} : List (String × β) → String → Option β
  | [], _ => none
  | (k, v) :: rest, key => if k = key then some v else jsGet rest key

/-- `Object.keys(obj)`: keys in insertion order. -/
def jsKeys {β : Type} (obj : List (String × β)) : List String :=
  obj.map Prod.fst

/-- `Object.values(obj)`: values in insertion order. -/
def jsValues {β : Type} (obj : List (String × β)) : List β :=
  obj.map Prod.snd

/-- `queries[k]` for the string-valued query objects: the bound value when
`k` is present.  The functions under study only access keys that are present;
an absent key yields JS `undefined`, rendered here as the string
`"undefined"`, which unary plus coerces to NaN exactly as JS does. -/
def getQuery (queries : List (String × String)) (k : String) : String :=
  (jsGet queries k).getD "undefined"

/-- ASCII whitespace stripped by JS string-to-number coercion. -/
def jsIsWhitespace (c : Char) : Bool :=
  c = ' ' || c = '\t' || c = '\n' || c = '\r'

/-- Numeric value of a digit string. -/
def digitsVal (l : List Char) : Nat :=
  l.foldl (fun acc c => acc * 10 + (c.toNat - 48)) 0

/-- An unsigned decimal-digit run, or NaN if empty or non-digits occur. -/
def parseDecDigits (l : List Char) : JSNum :=
  if l.isEmpty then JSNum.nan
  else if l.all Char.isDigit then JSNum.int (digitsVal l)
  else JSNum.nan

/-- JS unary plus (`+s`) on a string, on the decimal-integer fragment of the
Number grammar: surrounding whitespace is stripped, the empty remainder
coerces to `0`, an optionally signed digit run to its integer value, and
every other string (the filter code's "does not parse" case) to NaN.
(Fractional, exponent, hex and Infinity literals are outside the fragment
the filter routes exercise and also map to NaN here.) -/
def jsUnaryPlus (s : String) : JSNum :=
  match (s.data.dropWhile jsIsWhitespace).reverse.dropWhile jsIsWhitespace |>.reverse with
  | [] => JSNum.int 0
  | c :: rest =>
    if c = '+' then parseDecDigits rest
    else if c = '-' then
      match parseDecDigits rest with
      | JSNum.int n => JSNum.int (-n)
      | JSNum.nan => JSNum.nan
    else parseDecDigits (c :: rest)

/-- Template-literal rendering `${n}` of a coerced number: `NaN` prints as
the text `NaN`, integers in decimal. -/
def jsNumToString : JSNum → String
  | JSNum.nan => "NaN"
  | JSNum.int n => toString n

/-- JS `>=` on coerced numbers: any comparison with NaN is false. -/
def jsGE : JSNum → JSNum → Bool
  | JSNum.int a, JSNum.int b => decide (b ≤ a)
  | _, _ => false

/-- `s.toLowerCase()` (ASCII, the range the data exercises). -/
def jsToLower (s : String) : String :=
  String.mk (s.data.map Char.toLower)

/-- `Array.prototype.join(sep)`. -/
def jsJoin (sep : String) : List String → String
  | [] => ""
  | [x] => x
  | x :: xs => x ++ sep ++ jsJoin sep xs

/-- The column chosen by `jsToSql[colName] || colName`: the mapped name when
present and truthy (the only falsy string is `""`), else the key itself. -/
def orColumn (jsToSql : List (String × String)) (colName : String) : String :=
  match jsGet jsToSql colName with
  | some c => if c = "" then colName else c
  | none => colName

/-- `sqlForPartialUpdate(dataToUpdate, jsToSql)` from `helpers/sql.js`:
throws `BadRequestError("No data")` on an empty object, otherwise maps each
key to `"<column>"=$<index+1>` and joins with `", "`, passing the values
through unchanged. -/
def sqlForPartialUpdate {α : Type} (dataToUpdate : List (String × α))
    (jsToSql : List (String × String)) : Except JsError (UpdateResult α) :=
  if (jsKeys dataToUpdate).length = 0 then
    Except.error (JsError.badRequest "No data")
  else
    Except.ok
      (UpdateResult.mk
        (jsJoin ", "
          ((jsKeys dataToUpdate).enum.map
            (fun p => "\"" ++ orColumn jsToSql p.2 ++ "\"=$" ++ toString (p.1 + 1))))
        (jsValues dataToUpdate))

/-- `keys.every(key => allowed.includes(key))`: `every` on an empty array is
true without invoking the callback; on a non-empty array the first callback
invocation dereferences `allowed`, raising a `TypeError` when the argument
was omitted (`undefined`). -/
def everyAllowed (keys : List String) (allowed : Option (List String)) :
    Except JsError Bool :=
  match keys, allowed with
  | [], _ => Except.ok true
  | _ :: _, none =>
      Except.error (JsError.typeError "Cannot read properties of undefined (reading includes)")
  | ks, some a => Except.ok (ks.all fun k => a.contains k)

/-- The per-key fragment built by the map callback in `sqlForFilterQueries`. -/
def filterFragment (queries : List (String × String)) (colName : String) : String :=
  if colName = "minEmployees" || colName = "maxEmployees" then
    if colName = "minEmployees" then
      "num_employees >= " ++ jsNumToString (jsUnaryPlus (getQuery queries colName))
    else
      "num_employees <= " ++ jsNumToString (jsUnaryPlus (getQuery queries colName))
  else if colName = "minSalary" then
    "salary >= " ++ jsNumToString (jsUnaryPlus (getQuery queries colName))
  else if colName = "hasEquity" then
    if jsToLower (getQuery queries "hasEquity") = "true" then "equity > 0"
    else "equity >= 0"
  else
    "lower(" ++ colName ++ ") LIKE '%" ++ jsToLower (getQuery queries colName) ++ "%'"

/-- `sqlForFilterQueries(queries, allowed)` from `helpers/sql.js`: allow-list
check, rejected-value check, min/max-employees range check, then the joined
fragment string. -/
def sqlForFilterQueries (queries : List (String × String))
    (allowed : Option (List String)) : Except JsError String :=
  match everyAllowed (jsKeys queries) allowed with
  | Except.error e => Except.error e
  | Except.ok b =>
    if !b then Except.error (JsError.badRequest "invalid query parameter")
    else if (jsValues queries).any (fun val => REJECTEDVALUES.contains val) then
      Except.error (JsError.badRequest "invalid query value")
    else if (jsKeys queries).contains "minEmployees" && (jsKeys queries).contains "maxEmployees" then
      if jsGE (jsUnaryPlus (getQuery queries "minEmployees"))
              (jsUnaryPlus (getQuery queries "maxEmployees")) then
        Except.error (JsError.badRequest "minEmployees cannot be larger than maxEmployees")
      else Except.ok (jsJoin " AND " ((jsKeys queries).map (filterFragment queries)))
    else Except.ok (jsJoin " AND " ((jsKeys queries).map (filterFragment queries)))

/-- The allow-list the test suite supplies (`helpers/sql.test.js`). -/
def allowList : List String :=
  ["name", "minEmployees", "maxEmployees", "title", "minSalary", "hasEquity"]

/-- The query-string computation of `Job.filter` (`models/job.js`): it calls
`sqlForFilterQueries(queries)` with the `allowed` parameter absent. -/
def jobFilterQueryString (queries : List (String × String)) : Except JsError String :=
  sqlForFilterQueries queries none

/-- Modelled from the spec's words, for comparison with `orColumn`
(refinement check for the update compiler's column rule): "`<column>` is
`nameMap[key]` if present, else `key` verbatim". -/
def specColumn (nameMap : List (String × String)) (key : String) : String :=
  (jsGet nameMap key).getD key

/-- `s` contains the character run `pat` as a contiguous substring. -/
def containsChars (s : String) (pat : List Char) : Prop :=
  ∃ x y, s.data = x ++ pat ++ y

/-! ### Helper lemmas -/

/-- With an allow-list supplied, the `every` check returns the boolean
conjunction of the membership tests. -/
theorem everyAllowed_some (keys : List String) (a : List String) :
    everyAllowed keys (some a) = Except.ok (keys.all fun k => a.contains k) := by
  cases keys <;> rfl

/-- A key bound in the object is among its keys. -/
theorem jsGet_some_mem {β : Type} {obj : List (String × β)} {k : String} {v : β}
    (h : jsGet obj k = some v) : k ∈ jsKeys obj := by
  induction obj with
  | nil => simp [jsGet] at h
  | cons hd tl ih =>
    rw [jsGet] at h
    by_cases hk : hd.1 = k
    · simp [jsKeys, hk.symm]
    · rw [if_neg hk] at h
      simp [jsKeys] at ih ⊢
      exact Or.inr (ih h)

/-- A member of the joined list occurs contiguously in the join. -/
theorem jsJoin_mem_split (sep : String) {f : String} :
    ∀ {l : List String}, f ∈ l → ∃ x y, (jsJoin sep l).data = x ++ f.data ++ y := by
  intro l
  induction l with
  | nil => intro h; cases h
  | cons hd tl ih =>
    intro hf
    cases tl with
    | nil =>
      rw [List.mem_singleton] at hf
      subst hf
      exact ⟨[], [], by simp [jsJoin]⟩
    | cons h2 t2 =>
      rcases List.mem_cons.mp hf with hf1 | hf2
      · subst hf1
        refine ⟨[], (sep ++ jsJoin sep (h2 :: t2)).data, ?_⟩
        show (f ++ sep ++ jsJoin sep (h2 :: t2)).data = _
        simp [String.data_append]
      · rcases ih hf2 with ⟨x, y, hxy⟩
        refine ⟨hd.data ++ sep.data ++ x, y, ?_⟩
        show (hd ++ sep ++ jsJoin sep (h2 :: t2)).data = _
        simp [String.data_append, hxy]

/-- A query object that passes all three validation checks compiles to the
per-key fragments joined with `" AND "`. -/
theorem filter_ok_of_valid (queries : List (String × String)) (a : List String)
    (hall : ∀ k ∈ jsKeys queries, a.contains k = true)
    (hrej : ∀ v ∈ jsValues queries, REJECTEDVALUES.contains v = false)
    (hrange : ¬((jsKeys queries).contains "minEmployees" = true ∧
        (jsKeys queries).contains "maxEmployees" = true ∧
        jsGE (jsUnaryPlus (getQuery queries "minEmployees"))
          (jsUnaryPlus (getQuery queries "maxEmployees")) = true)) :
    sqlForFilterQueries queries (some a) =
      Except.ok (jsJoin " AND " ((jsKeys queries).map (filterFragment queries))) := by
  have h1 : ((jsKeys queries).all fun k => a.contains k) = true :=
    List.all_eq_true.mpr hall
  have h2 : ((jsValues queries).any fun val => REJECTEDVALUES.contains val) = false := by
    rw [List.any_eq_false]
    intro v hv
    rw [hrej v hv]
    exact Bool.false_ne_true
  unfold sqlForFilterQueries
  rw [everyAllowed_some, h1, h2]
  by_cases h3 : ((jsKeys queries).contains "minEmployees" &&
      (jsKeys queries).contains "maxEmployees") = true
  · have h4 : jsGE (jsUnaryPlus (getQuery queries "minEmployees"))
        (jsUnaryPlus (getQuery queries "maxEmployees")) = false := by
      rcases (Bool.and_eq_true _ _).mp h3 with ⟨ha, hb⟩
      by_contra hcon
      rw [Bool.not_eq_false] at hcon
      exact hrange ⟨ha, hb, hcon⟩
    rw [h3, h4]
    rfl
  · rw [Bool.not_eq_true] at h3
    rw [h3]
    rfl

/-! ### Claim theorems -/

/-- C1: on the map `{name: 'anderson', minEmployees: '200', maxEmployees: '5000'}`
with an allow-list containing those keys, `sqlForFilterQueries` returns exactly
`lower(name) LIKE '%anderson%' AND num_employees >= 200 AND num_employees <= 5000`;
and in general every queries map passing the three validation checks compiles to
the per-key fragments, in key iteration order, joined by `" AND "`. -/
theorem filter_valid_queries_joined :
    sqlForFilterQueries
        [("name", "anderson"), ("minEmployees", "200"), ("maxEmployees", "5000")]
        (some allowList) =
      Except.ok "lower(name) LIKE '%anderson%' AND num_employees >= 200 AND num_employees <= 5000" ∧
    ∀ (queries : List (String × String)) (a : List String),
      (∀ k ∈ jsKeys queries, a.contains k = true) →
      (∀ v ∈ jsValues queries, REJECTEDVALUES.contains v = false) →
      ¬((jsKeys queries).contains "minEmployees" = true ∧
          (jsKeys queries).contains "maxEmployees" = true ∧
          jsGE (jsUnaryPlus (getQuery queries "minEmployees"))
            (jsUnaryPlus (getQuery queries "maxEmployees")) = true) →
      sqlForFilterQueries queries (some a) =
        Except.ok (jsJoin " AND " ((jsKeys queries).map (filterFragment queries))) :=
  ⟨by decide, fun queries a hall hrej hrange => filter_ok_of_valid queries a hall hrej hrange⟩

/-- Witness for C1: the general clause applied to the valid map
`{minSalary: '50000'}`. -/
theorem filter_valid_queries_joined_witness :
    (∀ k ∈ jsKeys [("minSalary", "50000")], allowList.contains k = true) ∧
    (∀ v ∈ jsValues [("minSalary", "50000")], REJECTEDVALUES.contains v = false) ∧
    sqlForFilterQueries [("minSalary", "50000")] (some allowList) =
      Except.ok (jsJoin " AND "
        ((jsKeys [("minSalary", "50000")]).map (filterFragment [("minSalary", "50000")]))) :=
  ⟨by decide, by decide,
    filter_valid_queries_joined.2 [("minSalary", "50000")] allowList
      (by decide) (by decide) (by decide)⟩

/-- C2: a queries map holding any key outside the supplied allow-list makes
`sqlForFilterQueries` fail with the `BadRequestError` message
`invalid query parameter`, producing no fragment. -/
theorem filter_invalid_key_error (queries : List (String × String)) (a : List String)
    (h : ∃ k ∈ jsKeys queries, a.contains k = false) :
    sqlForFilterQueries queries (some a) =
      Except.error (JsError.badRequest "invalid query parameter") := by
  have h1 : ((jsKeys queries).all fun k => a.contains k) = false := by
    rw [List.all_eq_false]
    rcases h with ⟨k, hk, hka⟩
    exact ⟨k, hk, by rw [hka]; exact Bool.false_ne_true⟩
  unfold sqlForFilterQueries
  rw [everyAllowed_some, h1]
  rfl

/-- Witness for C2: the test suite's map `{name: 'llc', cats: '200'}` against
the test allow-list. -/
theorem filter_invalid_key_error_witness :
    (∃ k ∈ jsKeys [("name", "llc"), ("cats", "200")], allowList.contains k = false) ∧
    sqlForFilterQueries [("name", "llc"), ("cats", "200")] (some allowList) =
      Except.error (JsError.badRequest "invalid query parameter") :=
  ⟨⟨"cats", by decide, by decide⟩,
    filter_invalid_key_error [("name", "llc"), ("cats", "200")] allowList
      ⟨"cats", by decide, by decide⟩⟩

/-- C3: `Job.filter` passes no allow-list to `sqlForFilterQueries`, so for
every non-empty queries map the membership check dereferences `undefined` and
the call fails with a `TypeError` (not the documented `BadRequestError`),
before any other validation or fragment generation. -/
theorem jobFilter_typeError (queries : List (String × String)) (h : queries ≠ []) :
    jobFilterQueryString queries =
      Except.error (JsError.typeError "Cannot read properties of undefined (reading includes)") := by
  cases queries with
  | nil => exact absurd rfl h
  | cons q qs => rfl

/-- Witness for C3: the legitimate jobs query `{title: 'engineer'}` crashes. -/
theorem jobFilter_typeError_witness :
    ([("title", "engineer")] : List (String × String)) ≠ [] ∧
    jobFilterQueryString [("title", "engineer")] =
      Except.error (JsError.typeError "Cannot read properties of undefined (reading includes)") :=
  ⟨by decide, jobFilter_typeError [("title", "engineer")] (by decide)⟩

/-- C7: `sqlForPartialUpdate` on an empty data map fails with the
`BadRequestError` message `No data`, for every name map; an empty update is
never compiled as a no-op. -/
theorem sqlForPartialUpdate_empty_error {α : Type} (jsToSql : List (String × String)) :
    sqlForPartialUpdate ([] : List (String × α)) jsToSql =
      Except.error (JsError.badRequest "No data") := rfl

/-- C9: the empty queries map compiles to the empty string with no error, for
any allow-list (even an absent one, since `every` on an empty array never
invokes its callback). -/
theorem filter_empty_queries_empty_string (allowed : Option (List String)) :
    sqlForFilterQueries [] allowed = Except.ok "" := by
  cases allowed <;> rfl

/-- C4: when an allow-listed, non-rejected queries map carries both
`minEmployees` and `maxEmployees` with coerced minimum `>=` coerced maximum,
the compiler fails with the range-violation `BadRequestError`; and `minSalary`
has no analogous check: a lone `minSalary` of any non-rejected value compiles
to its fragment, never to a range error. -/
theorem filter_range_check :
    (∀ (queries : List (String × String)) (a : List String),
      (∀ k ∈ jsKeys queries, a.contains k = true) →
      (∀ v ∈ jsValues queries, REJECTEDVALUES.contains v = false) →
      (jsKeys queries).contains "minEmployees" = true →
      (jsKeys queries).contains "maxEmployees" = true →
      jsGE (jsUnaryPlus (getQuery queries "minEmployees"))
        (jsUnaryPlus (getQuery queries "maxEmployees")) = true →
      sqlForFilterQueries queries (some a) =
        Except.error (JsError.badRequest "minEmployees cannot be larger than maxEmployees")) ∧
    (∀ v : String, REJECTEDVALUES.contains v = false →
      sqlForFilterQueries [("minSalary", v)] (some allowList) =
        Except.ok ("salary >= " ++ jsNumToString (jsUnaryPlus v))) := by
  constructor
  · intro queries a hall hrej hmin hmax hge
    have h1 : ((jsKeys queries).all fun k => a.contains k) = true :=
      List.all_eq_true.mpr hall
    have h2 : ((jsValues queries).any fun val => REJECTEDVALUES.contains val) = false := by
      rw [List.any_eq_false]
      intro v hv
      rw [hrej v hv]
      exact Bool.false_ne_true
    have h3 : ((jsKeys queries).contains "minEmployees" &&
        (jsKeys queries).contains "maxEmployees") = true := by
      rw [hmin, hmax]; rfl
    unfold sqlForFilterQueries
    rw [everyAllowed_some, h1, h2, h3, hge]
    rfl
  · intro v hv
    have h := filter_ok_of_valid [("minSalary", v)] allowList
      (by intro k hk; simp only [jsKeys, List.map_cons, List.map_nil,
            List.mem_singleton] at hk; subst hk; decide)
      (by intro w hw; simp only [jsValues, List.map_cons, List.map_nil,
            List.mem_singleton] at hw; subst hw; exact hv)
      (fun hc => absurd hc.1 Bool.false_ne_true)
    rw [h]
    rfl

/-- Witness for C4: the test suite's failing pair `{minEmployees: '400',
maxEmployees: '300'}`, and a lone `{minSalary: '50000'}` compiling cleanly. -/
theorem filter_range_check_witness :
    (∀ k ∈ jsKeys [("minEmployees", "400"), ("maxEmployees", "300")],
      allowList.contains k = true) ∧
    jsGE (jsUnaryPlus (getQuery [("minEmployees", "400"), ("maxEmployees", "300")] "minEmployees"))
      (jsUnaryPlus (getQuery [("minEmployees", "400"), ("maxEmployees", "300")] "maxEmployees")) = true ∧
    sqlForFilterQueries [("minEmployees", "400"), ("maxEmployees", "300")] (some allowList) =
      Except.error (JsError.badRequest "minEmployees cannot be larger than maxEmployees") ∧
    REJECTEDVALUES.contains "50000" = false ∧
    sqlForFilterQueries [("minSalary", "50000")] (some allowList) =
      Except.ok ("salary >= " ++ jsNumToString (jsUnaryPlus "50000")) :=
  ⟨by decide, by decide,
    filter_range_check.1 [("minEmployees", "400"), ("maxEmployees", "300")] allowList
      (by decide) (by decide) (by decide) (by decide) (by decide),
    by decide,
    filter_range_check.2 "50000" (by decide)⟩

/-- C5 counterexample: `"  "` (two spaces) is a non-empty, whitespace-only
value, yet it is not a member of the fixed rejected set, and the compiler
accepts it instead of failing with `invalid query value`. -/
theorem filter_whitespace_value_accepted :
    ("  ".data ≠ [] ∧ ∀ c ∈ "  ".data, jsIsWhitespace c = true) ∧
    REJECTEDVALUES.contains "  " = false ∧
    sqlForFilterQueries [("name", "  ")] (some allowList) =
      Except.ok "lower(name) LIKE '%  %'" := by decide

/-- C5 (amended): for every queries map whose keys are all allow-listed, a
value that is a member of the fixed rejected set `["", " ", "null",
"undefined"]` makes `sqlForFilterQueries` fail with the `BadRequestError`
message `invalid query value`, regardless of which key carries it; membership
in the finite set — not the property of being whitespace-only — is what is
checked. -/
theorem filter_rejected_value_error (queries : List (String × String))
    (a : List String) (v : String)
    (hall : ∀ k ∈ jsKeys queries, a.contains k = true)
    (hv : v ∈ jsValues queries) (hrej : REJECTEDVALUES.contains v = true) :
    sqlForFilterQueries queries (some a) =
      Except.error (JsError.badRequest "invalid query value") := by
  have h1 : ((jsKeys queries).all fun k => a.contains k) = true :=
    List.all_eq_true.mpr hall
  have h2 : ((jsValues queries).any fun val => REJECTEDVALUES.contains val) = true :=
    List.any_eq_true.mpr ⟨v, hv, hrej⟩
  unfold sqlForFilterQueries
  rw [everyAllowed_some, h1, h2]
  rfl

/-- Witness for C5's amended theorem: the test suite's map `{name: ' '}`. -/
theorem filter_rejected_value_error_witness :
    (∀ k ∈ jsKeys [("name", " ")], allowList.contains k = true) ∧
    (" " ∈ jsValues [("name", " ")]) ∧ REJECTEDVALUES.contains " " = true ∧
    sqlForFilterQueries [("name", " ")] (some allowList) =
      Except.error (JsError.badRequest "invalid query value") :=
  ⟨by decide, by decide, by decide,
    filter_rejected_value_error [("name", " ")] allowList " "
      (by decide) (by decide) (by decide)⟩

/-- C6 counterexample: with `nameMap = {a: ""}` the mapped column name is
present but falsy, so `jsToSql[colName] || colName` falls back to the key and
the code produces `"a"=$1`, while the claim's column rule (`nameMap[key]`
whenever present) predicts `""=$1`. -/
theorem update_empty_mapped_column_counterexample :
    sqlForPartialUpdate [("a", (0 : Nat))] [("a", "")] =
      Except.ok (UpdateResult.mk "\"a\"=$1" [0]) ∧
    "\"" ++ specColumn [("a", "")] "a" ++ "\"=$1" ≠ "\"a\"=$1" := by decide

/-- C6 (amended): for every non-empty data map and every name map, `setCols`
is the fragments `"<column>"=$<position>` — column `nameMap[key]` when present
and non-empty (truthy), else the key verbatim; position the 1-based index in
iteration order, hence placeholders exactly `$1..$n` with no gaps or repeats —
joined with `", "`, and `values` is the data map's values unmodified, in the
same iteration order. -/
theorem sqlForPartialUpdate_shape {α : Type} (data : List (String × α))
    (nameMap : List (String × String)) (h : data ≠ []) :
    sqlForPartialUpdate data nameMap =
      Except.ok (UpdateResult.mk
        (jsJoin ", " (data.enum.map
          (fun p => "\"" ++ orColumn nameMap p.2.1 ++ "\"=$" ++ toString (p.1 + 1))))
        (data.map Prod.snd)) := by
  have hne : ¬(jsKeys data).length = 0 := by
    simp only [jsKeys, List.length_map, List.length_eq_zero]
    exact h
  unfold sqlForPartialUpdate
  rw [if_neg hne]
  have he : (jsKeys data).enum.map
      (fun p => "\"" ++ orColumn nameMap p.2 ++ "\"=$" ++ toString (p.1 + 1)) =
      data.enum.map
        (fun p => "\"" ++ orColumn nameMap p.2.1 ++ "\"=$" ++ toString (p.1 + 1)) := by
    rw [jsKeys, List.enum_map, List.map_map]
    rfl
  rw [he]
  rfl

/-- Witness for C6's amended theorem: the test suite's user update data with
its name map. -/
theorem sqlForPartialUpdate_shape_witness :
    ([("firstName", "Aliya"), ("age", "32")] : List (String × String)) ≠ [] ∧
    sqlForPartialUpdate [("firstName", "Aliya"), ("age", "32")]
        [("firstName", "first_name"), ("lastName", "last_name"), ("isAdmin", "is_admin")] =
      Except.ok (UpdateResult.mk
        (jsJoin ", " (([("firstName", "Aliya"), ("age", "32")] :
            List (String × String)).enum.map
          (fun p => "\"" ++
            orColumn [("firstName", "first_name"), ("lastName", "last_name"),
              ("isAdmin", "is_admin")] p.2.1 ++ "\"=$" ++ toString (p.1 + 1))))
        ([("firstName", "Aliya"), ("age", "32")].map Prod.snd)) :=
  ⟨by decide,
    sqlForPartialUpdate_shape [("firstName", "Aliya"), ("age", "32")]
      [("firstName", "first_name"), ("lastName", "last_name"), ("isAdmin", "is_admin")]
      (by decide)⟩

/-- C8: the fragment produced for `hasEquity` is `equity > 0` exactly when the
value case-insensitively equals `true`, and `equity >= 0` for every other
value; shown at fragment level for any map binding `hasEquity`, and end-to-end
on the singleton map for any non-rejected value. -/
theorem hasEquity_fragment_cases :
    (∀ (queries : List (String × String)) (v : String),
      jsGet queries "hasEquity" = some v →
      filterFragment queries "hasEquity" =
        if jsToLower v = "true" then "equity > 0" else "equity >= 0") ∧
    (∀ v : String, REJECTEDVALUES.contains v = false →
      sqlForFilterQueries [("hasEquity", v)] (some allowList) =
        Except.ok (if jsToLower v = "true" then "equity > 0" else "equity >= 0")) := by
  constructor
  · intro queries v hv
    have e1 : filterFragment queries "hasEquity" =
        if jsToLower (getQuery queries "hasEquity") = "true" then "equity > 0"
        else "equity >= 0" := rfl
    rw [e1, getQuery, hv, Option.getD_some]
  · intro v hv
    have h := filter_ok_of_valid [("hasEquity", v)] allowList
      (by intro k hk; simp only [jsKeys, List.map_cons, List.map_nil,
            List.mem_singleton] at hk; subst hk; decide)
      (by intro w hw; simp only [jsValues, List.map_cons, List.map_nil,
            List.mem_singleton] at hw; subst hw; exact hv)
      (fun hc => absurd hc.1 Bool.false_ne_true)
    rw [h]
    rfl

/-- Witness for C8: the mixed-case value `TrUe` takes the strict form and
`false` the inclusive form. -/
theorem hasEquity_fragment_cases_witness :
    jsGet [("hasEquity", "TrUe")] "hasEquity" = some "TrUe" ∧
    filterFragment [("hasEquity", "TrUe")] "hasEquity" =
      (if jsToLower "TrUe" = "true" then "equity > 0" else "equity >= 0") ∧
    REJECTEDVALUES.contains "false" = false ∧
    sqlForFilterQueries [("hasEquity", "false")] (some allowList) =
      Except.ok (if jsToLower "false" = "true" then "equity > 0" else "equity >= 0") :=
  ⟨by decide, hasEquity_fragment_cases.1 [("hasEquity", "TrUe")] "TrUe" (by decide),
    by decide, hasEquity_fragment_cases.2 "false" (by decide)⟩

/-- C10 counterexample: a map whose `minSalary` value does not parse as a
number can still raise an error, because the employee-pair range check (over
other keys of the same map) throws first. -/
theorem filter_nan_range_counterexample :
    jsUnaryPlus "abc" = JSNum.nan ∧
    REJECTEDVALUES.contains "abc" = false ∧
    (∀ k ∈ jsKeys [("minSalary", "abc"), ("minEmployees", "5"), ("maxEmployees", "3")],
      allowList.contains k = true) ∧
    sqlForFilterQueries [("minSalary", "abc"), ("minEmployees", "5"), ("maxEmployees", "3")]
        (some allowList) =
      Except.error (JsError.badRequest "minEmployees cannot be larger than maxEmployees") := by
  decide

/-- C10 (amended): on an allow-listed, non-rejected map for which the
employee-pair range check does not fire, a numeric filter key (`minEmployees`,
`maxEmployees` or `minSalary`) whose value does not parse as a number raises
no error: coercion yields NaN and the compiler returns a joined fragment
string containing the literal text `NaN`. -/
theorem filter_nan_fragment (queries : List (String × String)) (a : List String)
    (k v : String)
    (hall : ∀ x ∈ jsKeys queries, a.contains x = true)
    (hrej : ∀ x ∈ jsValues queries, REJECTEDVALUES.contains x = false)
    (hrange : ¬((jsKeys queries).contains "minEmployees" = true ∧
        (jsKeys queries).contains "maxEmployees" = true ∧
        jsGE (jsUnaryPlus (getQuery queries "minEmployees"))
          (jsUnaryPlus (getQuery queries "maxEmployees")) = true))
    (hk : k = "minEmployees" ∨ k = "maxEmployees" ∨ k = "minSalary")
    (hv : jsGet queries k = some v)
    (hnan : jsUnaryPlus v = JSNum.nan) :
    ∃ s, sqlForFilterQueries queries (some a) = Except.ok s ∧
      containsChars s ['N', 'a', 'N'] := by
  refine ⟨_, filter_ok_of_valid queries a hall hrej hrange, ?_⟩
  have hq : getQuery queries k = v := by rw [getQuery, hv, Option.getD_some]
  have hfragmem : filterFragment queries k ∈ (jsKeys queries).map (filterFragment queries) :=
    List.mem_map_of_mem _ (jsGet_some_mem hv)
  have hfrag : ∃ pre, (filterFragment queries k).data = pre ++ ['N', 'a', 'N'] := by
    rcases hk with h | h | h <;> subst h
    · refine ⟨"num_employees >= ".data, ?_⟩
      have e1 : filterFragment queries "minEmployees" =
          "num_employees >= " ++ jsNumToString (jsUnaryPlus (getQuery queries "minEmployees")) := rfl
      rw [e1, hq, hnan]
      decide
    · refine ⟨"num_employees <= ".data, ?_⟩
      have e1 : filterFragment queries "maxEmployees" =
          "num_employees <= " ++ jsNumToString (jsUnaryPlus (getQuery queries "maxEmployees")) := rfl
      rw [e1, hq, hnan]
      decide
    · refine ⟨"salary >= ".data, ?_⟩
      have e1 : filterFragment queries "minSalary" =
          "salary >= " ++ jsNumToString (jsUnaryPlus (getQuery queries "minSalary")) := rfl
      rw [e1, hq, hnan]
      decide
  rcases hfrag with ⟨pre, hpre⟩
  rcases jsJoin_mem_split " AND " hfragmem with ⟨x, y, hxy⟩
  exact ⟨x ++ pre, y, by rw [hxy, hpre]; simp⟩

/-- Witness for C10's amended theorem: the singleton map
`{minSalary: 'abc'}`. -/
theorem filter_nan_fragment_witness :
    jsGet [("minSalary", "abc")] "minSalary" = some "abc" ∧
    jsUnaryPlus "abc" = JSNum.nan ∧
    ∃ s, sqlForFilterQueries [("minSalary", "abc")] (some allowList) = Except.ok s ∧
      containsChars s ['N', 'a', 'N'] :=
  ⟨by decide, by decide,
    filter_nan_fragment [("minSalary", "abc")] allowList "minSalary" "abc"
      (by decide) (by decide) (by decide) (by decide) (by decide) (by decide)⟩

end Jobly
